import Mathlib

/-!
Shallow embedding of the llms_free_bot repository (a Telegram bot relaying
chat messages to the OpenRouter API), covering:

* `src/api/openrouter_api.py` — `OpenRouterClient.get_available_models`,
  `OpenRouterClient.get_free_models`, `OpenRouterClient.generate_response`,
  and the models cache (`_save_models_cache_sync`);
* `src/bot/telegram_bot.py` — `display_models` pagination, `model_selection`,
  `reset_chat` and `handle_message` with the per-user session store.

Python dicts coming from JSON payloads are modelled by an inductive `Json`
type; catalog entries, which the code reads through `dict.get` with typed
defaults, are modelled by a record of optional typed fields (`RawModel`).
Machine-level effects (the HTTP round trip, the cache file on disk) are made
explicit parameters: an HTTP exchange is a `FetchResult` (status, body text,
parsed body), and the cache file is a `CacheState`.
-/

namespace LlmsFreeBot

/-- JSON values, as Python's `json.load` / `response.json()` produce them:
`None`, `bool`, `int`, `str`, `list`, `dict` (an association list with unique
keys, in insertion order). -/
inductive Json where
  | null
  | bool (b : Bool)
  | num (n : Int)
  | str (s : String)
  | arr (items : List Json)
  | obj (fields : List (String × Json))

/-- First binding of a key in a JSON object's field list (Python dict keys are
unique, so first-match lookup agrees with `dict.__getitem__`). -/
def lookupField : List (String × Json) → String → Option Json
  | [], _ => none
  | (k, v) :: rest, key => if k = key then some v else lookupField rest key

/-- Python truthiness of a JSON value (`if models_data:`): `None`, `False`,
`0`, `""`, `[]` and `{}` are falsy, everything else truthy. -/
def Json.truthy : Json → Bool
  | .null => false
  | .bool b => b
  | .num n => n != 0
  | .str s => s != ""
  | .arr items => !items.isEmpty
  | .obj fields => !fields.isEmpty

/-- Python `d.get(key, default)`: succeeds only on a dict (on any other value
`.get` raises `AttributeError`, modelled as `Except.error`). -/
def dictGet (j : Json) (key : String) (default : Json) : Except String Json :=
  match j with
  | .obj fields => .ok ((lookupField fields key).getD default)
  | _ => .error "AttributeError: object has no attribute get"

/-- Python subscript `x[0]`: first element of a list (raising `IndexError` on
an empty list), first character of a string, and a `KeyError` / `TypeError`
on the remaining shapes (an `int` is never a key of a JSON-derived dict). -/
def index0 : Json → Except String Json
  | .arr [] => .error "list index out of range"
  | .arr (x :: _) => .ok x
  | .str s =>
      match s.toList with
      | [] => .error "string index out of range"
      | c :: _ => .ok (.str (String.mk [c]))
  | .obj _ => .error "KeyError: 0"
  | _ => .error "TypeError: object is not subscriptable"

/-- One user/assistant message, a Python dict `{"role": ..., "content": ...}`. -/
structure Turn where
  role : String
  content : String
deriving DecidableEq

/-! ## `OpenRouterClient.generate_response` (openrouter_api.py lines 141-186) -/

/-- Message list posted to the completions endpoint: `history ++ [user prompt]`
(openrouter_api.py lines 156-163). -/
def buildMessages (chat_history : List Turn) (prompt : String) : List Turn :=
  chat_history ++ [⟨"user", prompt⟩]

/-- Field extraction from a 200 response body (openrouter_api.py line 182):
`response_data.get("choices", [{}])[0].get("message", {}).get("content", "")`.
Each step can raise, exactly as the Python expression can, and the first
raised error aborts the chain. -/
def extractContent (response_data : Json) : Except String Json :=
  match dictGet response_data "choices" (.arr [.obj []]) with
  | .error e => .error e
  | .ok choices =>
    match index0 choices with
    | .error e => .error e
    | .ok first =>
      match dictGet first "message" (.obj []) with
      | .error e => .error e
      | .ok message => dictGet message "content" (.str "")

/-- `OpenRouterClient.generate_response`, given the completion endpoint's
reply: on a non-200 status it raises `Exception("Error generating response: "
+ body text)` (lines 177-179); on 200 it returns whatever the extraction
expression yields, with no validation (line 182). -/
def generate_response (status : Nat) (error_text : String) (response_data : Json) :
    Except String Json :=
  if status ≠ 200 then .error ("Error generating response: " ++ error_text)
  else extractContent response_data

/-! ## Catalog entries and `OpenRouterClient.get_free_models` (lines 106-139) -/

/-- A catalog entry as the code reads it: every field is accessed through
`model.get(...)`, so each may be absent. Fields the code never reads are not
modelled. -/
structure RawModel where
  id : Option String
  name : Option String
  description : Option String
  context_length : Option Int
  is_free : Option Bool
deriving DecidableEq

/-- Python `"free" in s.lower()`: case-insensitive substring test, with
`str.lower` modelled per character by `Char.toLower`. -/
def containsFree (s : String) : Bool :=
  decide ("free".toList <:+: s.toList.map Char.toLower)

/-- Filter condition of `get_free_models` (line 121):
`"free" in model.get("id", "").lower() or "free" in model.get("name", "").lower()`. -/
def isFreeModel (m : RawModel) : Bool :=
  containsFree (m.id.getD "") || containsFree (m.name.getD "")

/-- The dict built for each selected model (lines 125-131): `id` and `name`
via `model.get(key)` (absent stays `None`), `description` defaulting to `""`,
`context_length` defaulting to `4096`, and `is_free` set to `True`. -/
def toFreeEntry (m : RawModel) : RawModel :=
  { id := m.id
    name := m.name
    description := some (m.description.getD "")
    context_length := some (m.context_length.getD 4096)
    is_free := some true }

/-- Sort key access `x["context_length"]` (line 134); on entries produced by
`toFreeEntry` the field is always present. -/
def ctxKey (m : RawModel) : Int :=
  m.context_length.getD 4096

/-- The filter/project/sort core of `get_free_models` (lines 118-134): the
append loop keeps, in order, one `toFreeEntry` dict per catalog entry passing
`isFreeModel`, then `free_models.sort(key=lambda x: -x["context_length"])`
sorts in place — a stable sort by ascending `-context_length`, i.e. a stable
sort with the total preorder `ctxKey b ≤ ctxKey a`, here `mergeSort`. -/
def sortedFreeModels (models_data : List RawModel) : List RawModel :=
  ((models_data.filter isFreeModel).map toFreeEntry).mergeSort
    (fun a b => decide (ctxKey b ≤ ctxKey a))

/-- `OpenRouterClient.get_free_models` applied to a fetched catalog: the
sorted free entries, truncated when a positive limit is given
(`if limit is not None and limit > 0: return free_models[:limit]`,
lines 137-138). -/
def get_free_models (models_data : List RawModel) (limit : Option Int) : List RawModel :=
  match limit with
  | some l =>
      if l > 0 then (sortedFreeModels models_data).take l.toNat
      else sortedFreeModels models_data
  | none => sortedFreeModels models_data

/-! ## `OpenRouterClient.get_available_models` and the cache (lines 46-104) -/

/-- State of the cache file `data/models_cache.json`: missing, present but
unreadable (open or `json.load` raises), or parsed to a JSON value. -/
inductive CacheState where
  | absent
  | unreadable
  | parsed (contents : Json)

/-- `OpenRouterClient._save_models_cache_sync` (lines 101-104): `json.dump`
overwrites the file with the serialised value; reading it back with
`json.load` yields an equal value, so the resulting file state is `parsed`. -/
def save_models_cache (models_data : Json) : CacheState :=
  .parsed models_data

/-- Result of the catalog endpoint HTTP exchange: status, body as text, body
as parsed JSON. -/
structure FetchResult where
  status : Nat
  body_text : String
  body_json : Json

/-- Outcome of `get_available_models`: the returned value (or the raised
exception), the cache file state afterwards, and whether the remote fetch
was performed. -/
structure ModelsOutcome where
  result : Except String Json
  cache' : CacheState
  fetched : Bool

/-- The remote branch of `get_available_models` (lines 66-84): non-200 raises
`Exception("Error fetching models: " + body)`; otherwise
`json_data.get('data', [])` is returned and saved to cache. -/
def fetchModels (cache : CacheState) (fetch : FetchResult) : ModelsOutcome :=
  if fetch.status ≠ 200 then
    ⟨.error ("Error fetching models: " ++ fetch.body_text), cache, true⟩
  else
    match dictGet fetch.body_json "data" (.arr []) with
    | .ok models_data => ⟨.ok models_data, save_models_cache models_data, true⟩
    | .error e => ⟨.error e, cache, true⟩

/-- `OpenRouterClient.get_available_models` (lines 46-84): when `use_cache`
holds and the file exists and parses, the parsed value is returned verbatim
only if it is truthy (`if models_data: return models_data`, lines 60-61);
in every other case — falsy contents, unreadable file, missing file, or
`use_cache=False` — the remote fetch runs. -/
def get_available_models (use_cache : Bool) (cache : CacheState) (fetch : FetchResult) :
    ModelsOutcome :=
  match use_cache, cache with
  | true, .parsed contents =>
      if contents.truthy then ⟨.ok contents, cache, false⟩
      else fetchModels cache fetch
  | _, _ => fetchModels cache fetch

/-! ## Pagination in `display_models` (telegram_bot.py lines 99-110) -/

/-- `models_per_page = 5` (line 100). -/
def models_per_page : Nat := 5

/-- `total_pages = (total_models + models_per_page - 1) // models_per_page`
(line 102), ceiling division. -/
def total_pages (total_models : Nat) : Nat :=
  (total_models + models_per_page - 1) / models_per_page

/-- `page = max(0, min(page, total_pages - 1))` (line 105); the page index
arrives as a (possibly negative) integer parsed from the callback payload. -/
def clamp_page (page : Int) (tp : Nat) : Int :=
  max 0 (min page ((tp : Int) - 1))

/-! ## Session store and `handle_message` (telegram_bot.py lines 210-256) -/

/-- One user's entry in `user_sessions`: the dict may lack the
`selected_model` key, and holds a `chat_history` list of turns. -/
structure Session where
  selected_model : Option String
  chat_history : List Turn
deriving DecidableEq

/-- Truncation step (lines 248-249): `if len(h) > 10: h = h[-10:]`, with the
Python slice `h[-10:]` written as `drop (length - 10)`. -/
def trunc10 (l : List Turn) : List Turn :=
  if l.length > 10 then l.drop (l.length - 10) else l

/-- Last ten elements of a list (`h[-10:]` unconditionally); agrees with
`trunc10` because `drop 0` is the identity. -/
def lastTen (l : List Turn) : List Turn :=
  l.drop (l.length - 10)

/-- Result of one `handle_message` call: the user's session afterwards and
the reply text sent to the user. -/
structure HandleResult where
  session' : Option Session
  reply : String
deriving DecidableEq

/-- `handle_message` (lines 210-256) for one user, with the outcome of the
`generate_response` call passed in (`Except.ok` the returned text,
`Except.error` the message of the exception it raised). With no session or
no selected model it replies with the fixed prompt and mutates nothing
(lines 215-217). Otherwise the user turn is appended first (lines 224-227);
on success the assistant turn is appended and the history truncated to the
last 10 (lines 242-249); on failure the history keeps only the appended
user turn and the reply is `"An error occurred while generating response: "
+ str(e)` (lines 254-256). -/
def handle_message (sess : Option Session) (user_message : String)
    (gen : Except String String) : HandleResult :=
  match sess with
  | none => ⟨none, "Please select a model first using the /models command"⟩
  | some s =>
    match s.selected_model with
    | none => ⟨some s, "Please select a model first using the /models command"⟩
    | some _ =>
      let h1 := s.chat_history ++ [⟨"user", user_message⟩]
      match gen with
      | .ok response =>
          ⟨some { s with chat_history := trunc10 (h1 ++ [⟨"assistant", response⟩]) }, response⟩
      | .error e =>
          ⟨some { s with chat_history := h1 },
            "An error occurred while generating response: " ++ e⟩

/-- `reset_chat` (lines 201-208): clears the history of an existing session,
creates none. -/
def reset_chat (sess : Option Session) : Option Session :=
  match sess with
  | none => none
  | some s => some { s with chat_history := [] }

/-- Folding a sequence of `handle_message` calls (message text together with
the generation outcome) over one user's session. -/
def runMessages : Option Session → List (String × Except String String) → Option Session
  | sess, [] => sess
  | sess, step :: steps =>
      runMessages (handle_message sess step.1 step.2).session' steps

/-- A run of successful exchanges only: each pair is (user message, model
response) and every `generate_response` call returns normally. -/
def runSuccessful (model : String) (xs : List (String × String)) : Option Session :=
  runMessages (some ⟨some model, []⟩) (xs.map fun p => (p.1, .ok p.2))

/-- The turns appended by a list of successful exchanges, in order: for each
pair a user turn then an assistant turn. -/
def turnsOf (xs : List (String × String)) : List Turn :=
  xs.flatMap fun p => [⟨"user", p.1⟩, ⟨"assistant", p.2⟩]

/-! ## `model_selection` (telegram_bot.py lines 176-199) -/

/-- Python `s.split(':')` on a character list: splits at every colon, keeping
empty pieces (`"".split(':') == ['']`). -/
def splitColon : List Char → List (List Char)
  | [] => [[]]
  | c :: cs =>
      if c = ':' then [] :: splitColon cs
      else
        match splitColon cs with
        | [] => [[c]]
        | t :: ts => (c :: t) :: ts

/-- `model_id = query.data.split(':')[1]` (line 182); `none` models the
`IndexError` when the payload has no colon. -/
def extract_callback_id (data : List Char) : Option (List Char) :=
  (splitColon data)[1]?

/-- `model_selection` (lines 176-199) acting on one user's session: creates
the session as `{"chat_history": []}` when absent (lines 186-187), then
stores the extracted id in `selected_model` (line 190). The outer `none`
models the `IndexError` escaping when the payload has no colon. -/
def model_selection (sess : Option Session) (data : List Char) :
    Option (Option Session) :=
  match extract_callback_id data with
  | none => none
  | some mid =>
      let s := match sess with
        | none => (⟨none, []⟩ : Session)
        | some s => s
      some (some { s with selected_model := some (String.mk mid) })

/-! ## Helper lemmas -/

/-- Every branch of the remote fetch performs the fetch. -/
lemma fetchModels_fetched (cache : CacheState) (fetch : FetchResult) :
    (fetchModels cache fetch).fetched = true := by
  unfold fetchModels
  split
  · rfl
  · split <;> rfl

/-! ## Claim C4: cache hit behaviour of `get_available_models` -/

/-- Claim C4, counterexample: a cache file parsing to the empty list is not
returned verbatim — `if models_data:` is false on `[]`, so the remote fetch
runs and its data is returned instead. -/
theorem get_available_models_empty_cache_fetches :
    (get_available_models true (.parsed (.arr []))
        ⟨200, "", .obj [("data", .arr [.obj [("id", .str "m")]])]⟩).fetched = true ∧
    (get_available_models true (.parsed (.arr []))
        ⟨200, "", .obj [("data", .arr [.obj [("id", .str "m")]])]⟩).result
      = .ok (.arr [.obj [("id", .str "m")]]) := by
  exact ⟨rfl, rfl⟩

/-- Claim C4, amended: with `use_cache` and a cache file that exists and
parses, the parsed contents are returned verbatim with no remote fetch
exactly when they are truthy; falsy contents (in particular the empty list)
trigger the remote fetch. -/
theorem get_available_models_cache_hit :
    (∀ (v : Json) (f : FetchResult), v.truthy = true →
        get_available_models true (.parsed v) f = ⟨.ok v, .parsed v, false⟩) ∧
    (∀ (v : Json) (f : FetchResult), v.truthy = false →
        (get_available_models true (.parsed v) f).fetched = true) := by
  constructor
  · intro v f h
    simp [get_available_models, h]
  · intro v f h
    simp [get_available_models, h, fetchModels_fetched]

/-- Claim C4, witness: a one-element cached list is returned verbatim without
fetching, and the empty cached list triggers a fetch. -/
theorem get_available_models_cache_hit_witness :
    get_available_models true (.parsed (.arr [.null])) ⟨500, "down", .null⟩
      = ⟨.ok (.arr [.null]), .parsed (.arr [.null]), false⟩ ∧
    (get_available_models true (.parsed (.arr [])) ⟨500, "down", .null⟩).fetched = true :=
  ⟨get_available_models_cache_hit.1 (.arr [.null]) ⟨500, "down", .null⟩ rfl,
   get_available_models_cache_hit.2 (.arr []) ⟨500, "down", .null⟩ rfl⟩

/-! ## Claim C6: cache write-then-read round trip -/

/-- Claim C6, counterexample: writing the empty catalog and reading back with
`use_cache` does not return the written list — the falsy cache contents send
the client to the remote fetch, whose data is returned instead. -/
theorem cache_roundtrip_empty_fails :
    (get_available_models true (save_models_cache (.arr []))
        ⟨200, "", .obj [("data", .arr [.obj [("name", .str "remote")]])]⟩).result
      = .ok (.arr [.obj [("name", .str "remote")]]) ∧
    (get_available_models true (save_models_cache (.arr []))
        ⟨200, "", .obj [("data", .arr [.obj [("name", .str "remote")]])]⟩).result
      ≠ .ok (.arr []) := by
  refine ⟨rfl, ?_⟩
  intro h
  rw [show (get_available_models true (save_models_cache (.arr []))
        ⟨200, "", .obj [("data", .arr [.obj [("name", .str "remote")]])]⟩).result
      = .ok (.arr [.obj [("name", .str "remote")]]) from rfl] at h
  simp at h

/-- Claim C6, amended: for every non-empty catalog list, writing it to the
cache and reading with `use_cache` returns exactly the written list, with no
remote fetch. -/
theorem cache_roundtrip_nonempty (l : List Json) (f : FetchResult) (h : l ≠ []) :
    get_available_models true (save_models_cache (.arr l)) f
      = ⟨.ok (.arr l), save_models_cache (.arr l), false⟩ := by
  have ht : (Json.arr l).truthy = true := by
    simp [Json.truthy, h]
  simp [save_models_cache, get_available_models, ht]

/-- Claim C6, witness: round trip on a concrete one-element catalog. -/
theorem cache_roundtrip_nonempty_witness :
    get_available_models true (save_models_cache (.arr [.obj [("id", .str "x")]]))
        ⟨500, "down", .null⟩
      = ⟨.ok (.arr [.obj [("id", .str "x")]]),
          save_models_cache (.arr [.obj [("id", .str "x")]]), false⟩ :=
  cache_roundtrip_nonempty [.obj [("id", .str "x")]] ⟨500, "down", .null⟩ (by simp)

/-! ## Claim C7: pagination page count and clamping -/

/-- Claim C7: a filtered list of 12 models with page size 5 yields 3 pages,
and a requested page index outside `[0, total_pages - 1]` is clamped to the
nearest bound — negative indices to 0, indices at least `total_pages` to
`total_pages - 1`. -/
theorem pagination_pages_and_clamp :
    total_pages 12 = 3 ∧
    (∀ (p : Int) (tp : Nat), 1 ≤ tp → p < 0 → clamp_page p tp = 0) ∧
    (∀ (p : Int) (tp : Nat), 1 ≤ tp → (tp : Int) ≤ p →
        clamp_page p tp = (tp : Int) - 1) := by
  refine ⟨by decide, ?_, ?_⟩
  · intro p tp h1 h2
    unfold clamp_page
    omega
  · intro p tp h1 h2
    unfold clamp_page
    omega

/-- Claim C7, witness: page -2 clamps to 0 and page 7 clamps to 2 when there
are 3 pages. -/
theorem pagination_pages_and_clamp_witness :
    clamp_page (-2) 3 = 0 ∧ clamp_page 7 3 = 2 :=
  ⟨pagination_pages_and_clamp.2.1 (-2) 3 (by decide) (by decide),
   pagination_pages_and_clamp.2.2 7 3 (by decide) (by decide)⟩

/-! ## Claim C9: free text before a model is selected -/

/-- Claim C9: a free-text message from a user with no session, or whose
session has no selected model, gets the fixed "select a model first" reply
and leaves the session (in particular its history) unchanged. -/
theorem handle_message_no_model_selected (msg : String) (gen : Except String String) :
    handle_message none msg gen
      = ⟨none, "Please select a model first using the /models command"⟩ ∧
    (∀ s : Session, s.selected_model = none →
        handle_message (some s) msg gen
          = ⟨some s, "Please select a model first using the /models command"⟩) := by
  constructor
  · rfl
  · intro s hs
    simp [handle_message, hs]

/-- Claim C9, witness: concrete no-session and no-model-selected calls. -/
theorem handle_message_no_model_selected_witness :
    handle_message none "hi" (.ok "r")
      = ⟨none, "Please select a model first using the /models command"⟩ ∧
    handle_message (some ⟨none, [⟨"user", "old"⟩]⟩) "hi" (.ok "r")
      = ⟨some ⟨none, [⟨"user", "old"⟩]⟩,
          "Please select a model first using the /models command"⟩ :=
  ⟨(handle_message_no_model_selected "hi" (.ok "r")).1,
   (handle_message_no_model_selected "hi" (.ok "r")).2 ⟨none, [⟨"user", "old"⟩]⟩ rfl⟩

/-! ## Helper lemmas for `get_free_models` -/

/-- The sorted free list is pairwise descending in context length. -/
lemma sortedFreeModels_pairwise (ms : List RawModel) :
    List.Pairwise (fun a b => ctxKey b ≤ ctxKey a) (sortedFreeModels ms) := by
  have h := @List.sorted_mergeSort RawModel
    (fun a b : RawModel => decide (ctxKey b ≤ ctxKey a))
    (by
      intro a b c hab hbc
      simp only [decide_eq_true_eq] at hab hbc ⊢
      omega)
    (by
      intro a b
      simp only [Bool.or_eq_true, decide_eq_true_eq]
      omega)
    ((ms.filter isFreeModel).map toFreeEntry)
  exact h.imp (by intro a b hb; simpa using hb)

/-- Membership in the sorted free list is membership in the projected filter
output. -/
lemma mem_sortedFreeModels {x : RawModel} {ms : List RawModel} :
    x ∈ sortedFreeModels ms ↔ x ∈ (ms.filter isFreeModel).map toFreeEntry := by
  unfold sortedFreeModels
  exact List.mem_mergeSort

/-- Unfolding equation of `get_free_models` at `none`. -/
lemma get_free_models_none (ms : List RawModel) :
    get_free_models ms none = sortedFreeModels ms := rfl

/-- Unfolding equation of `get_free_models` at `some l`. -/
lemma get_free_models_some (ms : List RawModel) (l : Int) :
    get_free_models ms (some l)
      = if l > 0 then (sortedFreeModels ms).take l.toNat
        else sortedFreeModels ms := rfl

/-- Whatever the limit, every element of `get_free_models` comes from the
sorted free list. -/
lemma mem_of_mem_get_free_models {x : RawModel} {ms : List RawModel}
    {limit : Option Int} (h : x ∈ get_free_models ms limit) :
    x ∈ sortedFreeModels ms := by
  rcases limit with _ | l
  · rwa [get_free_models_none] at h
  · rw [get_free_models_some] at h
    by_cases hl : l > 0
    · rw [if_pos hl] at h
      exact List.mem_of_mem_take h
    · rwa [if_neg hl] at h

/-- The projection keeps `id` and `name`, so it preserves the filter
condition. -/
lemma isFreeModel_toFreeEntry (m : RawModel) :
    isFreeModel (toFreeEntry m) = isFreeModel m := rfl

/-- Concrete catalog from the spec's scenario: one model with "Free" in its
name and context length 8192, one with id "free-mini" and context length
4096, one without "free" anywhere. -/
def exCatalog : List RawModel :=
  [⟨some "mistralai/mistral-7b", some "Mistral 7B Free", some "d1", some 8192, none⟩,
   ⟨some "free-mini", some "Mini", some "d2", some 4096, none⟩,
   ⟨some "openai/gpt-4", some "GPT-4", some "d3", some 99999, none⟩]

/-- The free entry derived from the first scenario model. -/
def exEntryA : RawModel :=
  ⟨some "mistralai/mistral-7b", some "Mistral 7B Free", some "d1", some 8192, some true⟩

/-- The free entry derived from the second scenario model. -/
def exEntryB : RawModel :=
  ⟨some "free-mini", some "Mini", some "d2", some 4096, some true⟩

/-- Evaluation of `get_free_models` on the scenario catalog: exactly the two
free entries, in descending context-length order. -/
lemma get_free_models_exCatalog :
    get_free_models exCatalog none = [exEntryA, exEntryB] := by
  show sortedFreeModels exCatalog = _
  unfold sortedFreeModels
  rw [show (exCatalog.filter isFreeModel).map toFreeEntry = [exEntryA, exEntryB] from by decide]
  exact List.mergeSort_of_sorted (by decide)

/-! ## Claim C1: `get_free_models` output sorted, and its relation to input -/

/-- Claim C1, counterexample: the returned elements are new dicts, not
elements of the input list — here the input model lacks the `description`,
`context_length` and `is_free` keys, while the returned entry carries the
filled-in defaults, so the output is not a subset of the input. -/
theorem get_free_models_not_subset :
    ¬ (∀ x ∈ get_free_models [⟨some "free-model", none, none, none, none⟩] none,
          x ∈ [(⟨some "free-model", none, none, none, none⟩ : RawModel)]) := by
  have h : get_free_models [⟨some "free-model", none, none, none, none⟩] none
      = [⟨some "free-model", none, some "", some 4096, some true⟩] := by
    show sortedFreeModels _ = _
    unfold sortedFreeModels
    rw [show (([⟨some "free-model", none, none, none, none⟩] : List RawModel).filter
          isFreeModel).map toFreeEntry
        = [⟨some "free-model", none, some "", some 4096, some true⟩] from by decide]
    exact List.mergeSort_singleton _
  rw [h]
  decide

/-- Claim C1, amended: for every catalog and limit, the `get_free_models`
output is sorted by context length in descending order, and every returned
element is the `toFreeEntry` projection of some input element passing the
free filter (rather than an element of the input itself). -/
theorem get_free_models_sorted_and_projected (ms : List RawModel) (limit : Option Int) :
    List.Pairwise (fun a b => ctxKey b ≤ ctxKey a) (get_free_models ms limit) ∧
    (∀ x ∈ get_free_models ms limit, x ∈ (ms.filter isFreeModel).map toFreeEntry) := by
  constructor
  · have hs := sortedFreeModels_pairwise ms
    rcases limit with _ | l
    · rwa [get_free_models_none]
    · rw [get_free_models_some]
      by_cases hl : l > 0
      · rw [if_pos hl]
        exact List.Pairwise.sublist (List.take_sublist l.toNat (sortedFreeModels ms)) hs
      · rwa [if_neg hl]
  · intro x hx
    exact mem_sortedFreeModels.mp (mem_of_mem_get_free_models hx)

/-- Claim C1, witness: on the scenario catalog the output is descending and
its first element is the projection of a catalog entry. -/
theorem get_free_models_sorted_and_projected_witness :
    List.Pairwise (fun a b => ctxKey b ≤ ctxKey a) (get_free_models exCatalog none) ∧
    exEntryA ∈ (exCatalog.filter isFreeModel).map toFreeEntry :=
  ⟨(get_free_models_sorted_and_projected exCatalog none).1,
   (get_free_models_sorted_and_projected exCatalog none).2 exEntryA
     (by rw [get_free_models_exCatalog]; decide)⟩

/-! ## Claim C8: filter soundness, completeness, and limit truncation -/

/-- Claim C8: every returned entry satisfies the case-insensitive "free"
substring condition on its id or name; every catalog entry satisfying the
condition is represented in the (unlimited) output through its projection;
and a positive limit truncates the output to at most that many entries. -/
theorem get_free_models_free_complete_limited (ms : List RawModel) :
    (∀ (limit : Option Int), ∀ x ∈ get_free_models ms limit, isFreeModel x = true) ∧
    (∀ m ∈ ms, isFreeModel m = true → toFreeEntry m ∈ get_free_models ms none) ∧
    (∀ k : Int, 0 < k → ((get_free_models ms (some k)).length : Int) ≤ k) := by
  refine ⟨?_, ?_, ?_⟩
  · intro limit x hx
    have hx' := mem_sortedFreeModels.mp (mem_of_mem_get_free_models hx)
    rcases List.mem_map.mp hx' with ⟨m, hm, rfl⟩
    rw [isFreeModel_toFreeEntry]
    exact (List.mem_filter.mp hm).2
  · intro m hm hfree
    rw [get_free_models_none, mem_sortedFreeModels]
    exact List.mem_map_of_mem toFreeEntry (List.mem_filter.mpr ⟨hm, hfree⟩)
  · intro k hk
    rw [get_free_models_some, if_pos hk]
    have := List.length_take_le k.toNat (sortedFreeModels ms)
    omega

/-- Claim C8, witness: on the scenario catalog, the head entry passes the
free condition, the projection of the "free-mini" model is in the output,
and a limit of 1 bounds the length by 1. -/
theorem get_free_models_free_complete_limited_witness :
    isFreeModel exEntryA = true ∧
    toFreeEntry ⟨some "free-mini", some "Mini", some "d2", some 4096, none⟩
      ∈ get_free_models exCatalog none ∧
    ((get_free_models exCatalog (some 1)).length : Int) ≤ 1 :=
  ⟨(get_free_models_free_complete_limited exCatalog).1 none exEntryA
      (by rw [get_free_models_exCatalog]; decide),
   (get_free_models_free_complete_limited exCatalog).2.1
      ⟨some "free-mini", some "Mini", some "d2", some 4096, none⟩ (by decide) (by decide),
   (get_free_models_free_complete_limited exCatalog).2.2 1 (by decide)⟩

/-! ## Helper lemmas for the history cap -/

/-- The conditional truncation agrees with unconditionally keeping the last
ten entries, because dropping zero elements is the identity. -/
lemma trunc10_eq_lastTen (l : List Turn) : trunc10 l = lastTen l := by
  unfold trunc10 lastTen
  split
  · rfl
  · rw [Nat.sub_eq_zero_of_le (by omega), List.drop_zero]

/-- Keeping the last ten, appending, and keeping the last ten again is the
same as appending and keeping the last ten once. -/
lemma lastTen_append_lastTen (xs ys : List Turn) :
    lastTen (lastTen xs ++ ys) = lastTen (xs ++ ys) := by
  unfold lastTen
  rcases Nat.le_total xs.length 10 with h | h
  · rw [Nat.sub_eq_zero_of_le h, List.drop_zero]
  · rw [List.drop_append_eq_append_drop, List.drop_append_eq_append_drop,
      List.drop_drop]
    congr 1
    · congr 1
      simp only [List.length_append, List.length_drop]
      omega
    · congr 1
      simp only [List.length_append, List.length_drop]
      omega

/-- A run of successful exchanges starting from a history of the form
`lastTen acc` ends with the history `lastTen (acc ++ appended turns)`, the
model selection untouched. -/
lemma runMessages_successful (model : String) :
    ∀ (xs : List (String × String)) (acc : List Turn),
      runMessages (some ⟨some model, lastTen acc⟩) (xs.map fun p => (p.1, .ok p.2))
        = some ⟨some model, lastTen (acc ++ turnsOf xs)⟩ := by
  intro xs
  induction xs with
  | nil =>
      intro acc
      simp [runMessages, turnsOf]
  | cons p xs ih =>
      intro acc
      simp only [List.map_cons]
      rw [show runMessages (some ⟨some model, lastTen acc⟩)
              ((p.1, Except.ok p.2) :: xs.map fun q => (q.1, .ok q.2))
            = runMessages
                (handle_message (some ⟨some model, lastTen acc⟩) p.1 (.ok p.2)).session'
                (xs.map fun q => (q.1, .ok q.2)) from rfl]
      rw [show (handle_message (some ⟨some model, lastTen acc⟩) p.1 (.ok p.2)).session'
            = some ⟨some model,
                trunc10 ((lastTen acc ++ [⟨"user", p.1⟩]) ++ [⟨"assistant", p.2⟩])⟩ from rfl]
      rw [trunc10_eq_lastTen, List.append_assoc, lastTen_append_lastTen,
        ← List.append_assoc]
      rw [show (lastTen ((acc ++ [⟨"user", p.1⟩]) ++ [⟨"assistant", p.2⟩]))
            = lastTen (acc ++ ([⟨"user", p.1⟩] ++ [⟨"assistant", p.2⟩])) from by
          rw [List.append_assoc]]
      rw [ih (acc ++ ([(⟨"user", p.1⟩ : Turn)] ++ [(⟨"assistant", p.2⟩ : Turn)]))]
      simp [turnsOf, List.append_assoc]

/-! ## Claim C2: the ten-entry history cap -/

/-- Claim C2, counterexample: the truncation to ten entries runs only on the
success path, so exchanges whose generation call fails append the user turn
without ever truncating — after eleven failed exchanges the history holds
eleven turns, exceeding the claimed bound of ten. -/
theorem history_cap_violated_on_failures :
    (runMessages (some ⟨some "model-x", []⟩)
        (List.replicate 11 ("hi", Except.error "boom"))).map
      (fun s => s.chat_history.length) = some 11 := by
  rfl

/-- Claim C2, amended: over sequences of successful message exchanges the
invariant holds — after any such sequence the history is exactly the last
ten appended turns in order (hence has length at most ten, and exactly ten
once more than ten turns have been appended). Failed exchanges, which append
a user turn without truncating, are excluded. -/
theorem history_cap_successful_exchanges (model : String) (xs : List (String × String)) :
    (runSuccessful model xs).map Session.chat_history = some (lastTen (turnsOf xs)) ∧
    (lastTen (turnsOf xs)).length ≤ 10 ∧
    (10 < (turnsOf xs).length → (lastTen (turnsOf xs)).length = 10) := by
  refine ⟨?_, ?_, ?_⟩
  · unfold runSuccessful
    rw [show (some (⟨some model, []⟩ : Session)) = some (⟨some model, lastTen []⟩ : Session)
          from rfl]
    rw [runMessages_successful model xs []]
    simp
  · unfold lastTen
    rw [List.length_drop]
    omega
  · intro h
    unfold lastTen
    rw [List.length_drop]
    omega

/-- Six concrete successful exchanges (twelve turns). -/
def exPairs : List (String × String) :=
  [("u1", "a1"), ("u2", "a2"), ("u3", "a3"), ("u4", "a4"), ("u5", "a5"), ("u6", "a6")]

/-- Claim C2, witness: after six successful exchanges the history is the last
ten of the twelve appended turns and has length exactly ten. -/
theorem history_cap_successful_exchanges_witness :
    (runSuccessful "model-x" exPairs).map Session.chat_history
        = some (lastTen (turnsOf exPairs)) ∧
    (lastTen (turnsOf exPairs)).length = 10 :=
  ⟨(history_cap_successful_exchanges "model-x" exPairs).1,
   (history_cap_successful_exchanges "model-x" exPairs).2.2 (by decide)⟩

/-! ## Claim C3: missing fields in a 200 completion response -/

/-- Claim C3, counterexample: when `choices` is present but an empty list,
`response_data.get("choices", [{}])[0]` raises `IndexError` — the call does
not return the empty string. -/
theorem generate_response_empty_choices_errors :
    generate_response 200 "" (.obj [("choices", .arr [])])
      = .error "list index out of range" ∧
    generate_response 200 "" (.obj [("choices", .arr [])]) ≠ .ok (.str "") := by
  refine ⟨rfl, ?_⟩
  intro h
  rw [show generate_response 200 "" (.obj [("choices", .arr [])])
        = .error "list index out of range" from rfl] at h
  simp at h

/-- Claim C3, amended: on a 200 response, a missing `choices` key, a first
choice object missing `message`, or a message object missing `content` each
yield the empty string through the chained `.get` defaults; but `choices`
present as an empty list raises an `IndexError` instead of yielding the
empty string. -/
theorem generate_response_missing_fields (et : String) :
    (∀ fs, lookupField fs "choices" = none →
        generate_response 200 et (.obj fs) = .ok (.str "")) ∧
    (∀ fs ms rest, lookupField fs "choices" = some (.arr (.obj ms :: rest)) →
        lookupField ms "message" = none →
        generate_response 200 et (.obj fs) = .ok (.str "")) ∧
    (∀ fs ms cs rest, lookupField fs "choices" = some (.arr (.obj ms :: rest)) →
        lookupField ms "message" = some (.obj cs) →
        lookupField cs "content" = none →
        generate_response 200 et (.obj fs) = .ok (.str "")) ∧
    (∀ fs, lookupField fs "choices" = some (.arr []) →
        generate_response 200 et (.obj fs) = .error "list index out of range") := by
  refine ⟨?_, ?_, ?_, ?_⟩
  · intro fs h
    simp [generate_response, extractContent, dictGet, index0, lookupField, h]
  · intro fs ms rest h hm
    simp [generate_response, extractContent, dictGet, index0, lookupField, h, hm]
  · intro fs ms cs rest h hm hc
    simp [generate_response, extractContent, dictGet, index0, lookupField, h, hm, hc]
  · intro fs h
    simp [generate_response, extractContent, dictGet, index0, lookupField, h]

/-- Claim C3, witness: each of the three missing-field shapes yields the
empty string on a concrete body, and an empty `choices` list errors. -/
theorem generate_response_missing_fields_witness :
    generate_response 200 "" (.obj [("id", .str "1")]) = .ok (.str "") ∧
    generate_response 200 "" (.obj [("choices", .arr [.obj [("idx", .num 0)]])])
      = .ok (.str "") ∧
    generate_response 200 ""
        (.obj [("choices", .arr [.obj [("message", .obj [("role", .str "assistant")])]])])
      = .ok (.str "") ∧
    generate_response 200 "" (.obj [("choices", .arr [])])
      = .error "list index out of range" :=
  ⟨(generate_response_missing_fields "").1 [("id", .str "1")] rfl,
   (generate_response_missing_fields "").2.1
     [("choices", .arr [.obj [("idx", .num 0)]])] [("idx", .num 0)] [] rfl rfl,
   (generate_response_missing_fields "").2.2.1
     [("choices", .arr [.obj [("message", .obj [("role", .str "assistant")])]])]
     [("message", .obj [("role", .str "assistant")])] [("role", .str "assistant")] []
     rfl rfl rfl,
   (generate_response_missing_fields "").2.2.2 [("choices", .arr [])] rfl⟩

/-! ## Claim C5: HTTP error from the completion endpoint -/

/-- Claim C5: when the completion endpoint answers with a non-200 status,
`generate_response` raises an exception whose text ends with the response
body; `handle_message` then replies with an error message carrying that
text (hence containing the body) and the session keeps only the appended
user turn — no assistant turn is added by the failed exchange. -/
theorem handle_message_http_error (status : Nat) (hs : status ≠ 200)
    (body : String) (response_json : Json) (s : Session) (m : String)
    (hm : s.selected_model = some m) (msg : String) :
    generate_response status body response_json
      = .error ("Error generating response: " ++ body) ∧
    handle_message (some s) msg (.error ("Error generating response: " ++ body))
      = ⟨some ⟨s.selected_model, s.chat_history ++ [⟨"user", msg⟩]⟩,
          "An error occurred while generating response: "
            ++ ("Error generating response: " ++ body)⟩ ∧
    (∀ t ∈ s.chat_history ++ [(⟨"user", msg⟩ : Turn)],
        t.role = "assistant" → t ∈ s.chat_history) := by
  refine ⟨?_, ?_, ?_⟩
  · simp [generate_response, hs]
  · simp [handle_message, hm]
  · intro t ht hrole
    rcases List.mem_append.mp ht with h | h
    · exact h
    · rw [List.mem_singleton] at h
      subst h
      simp at hrole

/-- Claim C5, witness: a concrete 500 reply whose body reaches the user's
error message while the history gains only the user turn. -/
theorem handle_message_http_error_witness :
    generate_response 500 "Internal Server Error" .null
      = .error ("Error generating response: " ++ "Internal Server Error") ∧
    handle_message (some ⟨some "model-a", [⟨"user", "q"⟩, ⟨"assistant", "r"⟩]⟩) "next"
        (.error ("Error generating response: " ++ "Internal Server Error"))
      = ⟨some ⟨some "model-a",
            [⟨"user", "q"⟩, ⟨"assistant", "r"⟩] ++ [⟨"user", "next"⟩]⟩,
          "An error occurred while generating response: "
            ++ ("Error generating response: " ++ "Internal Server Error")⟩ :=
  ⟨(handle_message_http_error 500 (by decide) "Internal Server Error" .null
      ⟨some "model-a", [⟨"user", "q"⟩, ⟨"assistant", "r"⟩]⟩ "model-a" rfl "next").1,
   (handle_message_http_error 500 (by decide) "Internal Server Error" .null
      ⟨some "model-a", [⟨"user", "q"⟩, ⟨"assistant", "r"⟩]⟩ "model-a" rfl "next").2.1⟩

/-! ## Helper lemmas for `model_selection` -/

/-- Python `split` never yields an empty list of pieces. -/
lemma splitColon_ne_nil : ∀ cs : List Char, splitColon cs ≠ [] := by
  intro cs
  induction cs with
  | nil => simp [splitColon]
  | cons c cs ih =>
      unfold splitColon
      split
      · simp
      · split
        · simp
        · simp

/-- Splitting a concatenation whose first part has no colon merges that part
into the first piece of the second part's split. -/
lemma splitColon_append_no_colon (a b : List Char) (h : ':' ∉ a) :
    splitColon (a ++ b) = (a ++ (splitColon b).headD []) :: (splitColon b).tail := by
  induction a with
  | nil =>
      rcases hsb : splitColon b with _ | ⟨t, ts⟩
      · exact absurd hsb (splitColon_ne_nil b)
      · simp [hsb]
  | cons c a ih =>
      have hc : c ≠ ':' := by
        intro hh
        exact h (by simp [hh])
      have h' : ':' ∉ a := fun hh => h (List.mem_cons_of_mem _ hh)
      simp only [List.cons_append]
      show (if c = ':' then [] :: splitColon (a ++ b)
          else match splitColon (a ++ b) with
            | [] => [[c]]
            | t :: ts => (c :: t) :: ts)
        = ((c :: a) ++ (splitColon b).headD []) :: (splitColon b).tail
      rw [if_neg hc, ih h']
      simp

/-- The first piece of a split is the longest colon-free prefix. -/
lemma splitColon_headD (cs : List Char) :
    (splitColon cs).headD [] = cs.takeWhile (fun c => !(c == ':')) := by
  induction cs with
  | nil => simp [splitColon]
  | cons c cs ih =>
      unfold splitColon
      by_cases hc : c = ':'
      · subst hc
        simp [List.takeWhile_cons]
      · rw [if_neg hc]
        rcases hsb : splitColon cs with _ | ⟨t, ts⟩
        · exact absurd hsb (splitColon_ne_nil cs)
        · rw [hsb] at ih
          simp only [List.headD_cons] at ih
          simp [List.takeWhile_cons, hc, ← ih]

/-- On a `model:<id>` payload the extracted model id is the longest
colon-free prefix of `<id>`. -/
lemma extract_callback_id_model (id : List Char) :
    extract_callback_id ("model:".toList ++ id)
      = some (id.takeWhile (fun c => !(c == ':'))) := by
  unfold extract_callback_id
  rw [show ("model:".toList ++ id) = "model".toList ++ (':' :: id) from rfl]
  rw [splitColon_append_no_colon "model".toList (':' :: id) (by decide)]
  rw [show splitColon (':' :: id) = [] :: splitColon id from by simp [splitColon]]
  rcases hsb : splitColon id with _ | ⟨t, ts⟩
  · exact absurd hsb (splitColon_ne_nil id)
  · have ht := splitColon_headD id
    rw [hsb] at ht
    simp only [List.headD_cons] at ht
    simp [hsb, ht]

/-! ## Claim C10: model ids containing a colon are truncated on selection -/

/-- Claim C10: selecting a model whose id contains a colon stores, as the
user's selected model, only the portion of the id before the first colon —
`query.data.split(':')[1]` keeps a single piece of the payload — so the
stored id differs from the id of the model the user picked. The session is
created when absent and its history is preserved when present. -/
theorem model_selection_truncates_colon_id (id : List Char) (h : ':' ∈ id)
    (sess : Option Session) :
    model_selection sess ("model:".toList ++ id)
      = some (some ⟨some (String.mk (id.takeWhile (fun c => !(c == ':')))),
          (sess.map Session.chat_history).getD []⟩) ∧
    String.mk (id.takeWhile (fun c => !(c == ':'))) ≠ String.mk id := by
  constructor
  · unfold model_selection
    rw [extract_callback_id_model]
    rcases sess with _ | s
    · rfl
    · rfl
  · intro heq
    have hd : id.takeWhile (fun c => !(c == ':')) = id := congrArg String.data heq
    rw [List.takeWhile_eq_self_iff] at hd
    have := hd ':' h
    simp at this

/-- Claim C10, witness: picking the model with id "vendor/model:free" stores
"vendor/model", which differs from the picked id. -/
theorem model_selection_truncates_colon_id_witness :
    model_selection none ("model:".toList ++ "vendor/model:free".toList)
      = some (some ⟨some (String.mk
          ("vendor/model:free".toList.takeWhile (fun c => !(c == ':')))), []⟩) ∧
    String.mk ("vendor/model:free".toList.takeWhile (fun c => !(c == ':')))
      ≠ String.mk "vendor/model:free".toList :=
  ⟨(model_selection_truncates_colon_id "vendor/model:free".toList (by decide) none).1,
   (model_selection_truncates_colon_id "vendor/model:free".toList (by decide) none).2⟩

end LlmsFreeBot
